import Mathlib

/-!
Verification of the `profile.py` testbed-profile script.

The script is a straight-line construction of a resource request against the
geni portal library: it makes a request, attaches a tour description, adds one
raw PC node with a hardware type, a disk image and a routable control IP, gives
that node one blockstore, and finally serializes the request to standard
output.  We embed the script as a list of statements of a small statement
language together with an interpreter that threads the constructed objects,
records observable effects, and lets any library call raise a fault.
-/

namespace HelloProfile

/-- Kind tag for a tour description, mirroring `IG.Tour.TEXT` and
`IG.Tour.MARKDOWN` of the geni extension library. -/
inductive TourKind where
  | TEXT
  | MARKDOWN
deriving DecidableEq, Repr

/-- A block storage volume as created by `node.Blockstore(name, mount)`; the
`size` field starts unset and is assigned afterwards. -/
structure Blockstore where
  name : String
  mount : String
  size : Option String
deriving DecidableEq, Repr

/-- One requested machine, as created by `request.RawPC(name)`, with the
attributes the script assigns.  Unassigned attributes are `none`. -/
structure Node where
  name : String
  hardware_type : Option String
  disk_image : Option String
  routable_control_ip : Bool
  blockstores : List Blockstore
deriving DecidableEq, Repr

/-- A tour object (`IG.Tour()`); its description is set by
`tour.Description(kind, text)` and starts unset. -/
structure Tour where
  description : Option (TourKind × String)
deriving DecidableEq, Repr

/-- The request under construction, as returned by `pc.makeRequestRSpec()`:
an ordered collection of tours and of node declarations. -/
structure Request where
  tours : List Tour
  nodes : List Node
deriving DecidableEq, Repr

/-- A fresh node as `request.RawPC(name)` creates it, before any attribute
assignment. -/
def Node.fresh (name : String) : Node :=
  { name := name, hardware_type := none, disk_image := none,
    routable_control_ip := false, blockstores := [] }

/-- The empty request returned by `pc.makeRequestRSpec()`. -/
def Request.empty : Request :=
  { tours := [], nodes := [] }

/-- A fresh tour as `IG.Tour()` creates it. -/
def Tour.empty : Tour :=
  { description := none }

/-- Interpreter state: the script's live objects.  `nodeRef` and `bsRef`
model the Python variables `node` and `bs` as references into the request
(the index of the node, and the index of the blockstore within that node). -/
structure PState where
  request : Request
  tour : Tour
  nodeRef : Nat
  bsRef : Nat
deriving DecidableEq, Repr

/-- Observable side effects a statement can perform. -/
inductive Effect where
  | writeStdout (doc : String)
  | readArgv
  | readEnv (var : String)
  | readFile (path : String)
  | writeFile (path : String)
  | network
deriving DecidableEq, Repr

/-- Statements of the embedded script language: the library operations
`profile.py` performs, the input/output operations a script of this kind could
have performed but this one does not, and the control constructs (branch,
loop, exception handler) the language offers but this script never uses. -/
inductive Stmt where
  | makeContext
  | makeRequest
  | makeTour
  | tourDescriptionSet (kind : TourKind) (text : String)
  | addTourToRequest
  | rawPC (name : String)
  | nodeSetHardwareType (v : String)
  | nodeSetDiskImage (v : String)
  | nodeSetRoutableControlIp (v : Bool)
  | nodeBlockstore (name mount : String)
  | bsSetSize (v : String)
  | printRequestRSpec
  | readArgvStmt
  | readEnvStmt (var : String)
  | readFileStmt (path : String)
  | writeFileStmt (path : String)
  | networkStmt
  | ifElse (cond : PState → Bool) (thenBranch elseBranch : List Stmt)
  | whileLoop (cond : PState → Bool) (body : List Stmt)
  | tryExcept (body handler : List Stmt)

/-- Replace the element at index `i` of a list by applying `f`, leaving the
list unchanged when the index is out of range. -/
def modifyAt (f : α → α) : Nat → List α → List α
  | _, [] => []
  | 0, a :: as => f a :: as
  | i + 1, a :: as => a :: modifyAt f i as

/-- Apply `f` to the node the Python variable `node` refers to. -/
def PState.onNode (st : PState) (f : Node → Node) : PState :=
  { st with request :=
      { st.request with nodes := modifyAt f st.nodeRef st.request.nodes } }

/-- State transition of one straight-line statement.  Control and I/O
statements leave the constructed objects unchanged. -/
def atomicStep : Stmt → PState → PState
  | .makeContext, st => st
  | .makeRequest, st => { st with request := Request.empty }
  | .makeTour, st => { st with tour := Tour.empty }
  | .tourDescriptionSet kind text, st =>
      { st with tour := { description := some (kind, text) } }
  | .addTourToRequest, st =>
      { st with request := { st.request with tours := st.request.tours ++ [st.tour] } }
  | .rawPC name, st =>
      { st with nodeRef := st.request.nodes.length,
                request := { st.request with nodes := st.request.nodes ++ [Node.fresh name] } }
  | .nodeSetHardwareType v, st => st.onNode fun nd => { nd with hardware_type := some v }
  | .nodeSetDiskImage v, st => st.onNode fun nd => { nd with disk_image := some v }
  | .nodeSetRoutableControlIp v, st => st.onNode fun nd => { nd with routable_control_ip := v }
  | .nodeBlockstore name mount, st =>
      let st1 := { st with
        bsRef := ((st.request.nodes.getD st.nodeRef (Node.fresh (""))).blockstores).length }
      st1.onNode fun nd =>
        { nd with blockstores := nd.blockstores ++ [{ name := name, mount := mount, size := none }] }
  | .bsSetSize v, st =>
      st.onNode fun nd =>
        { nd with blockstores := modifyAt (fun b => { b with size := some v }) st.bsRef nd.blockstores }
  | _, st => st

/-- Modelled from the spec: the serializer behind `pc.printRequestRSpec` lives
in the external geni library, whose source is not part of this repository; the
spec only fixes that it renders the completed request into one XML-like
document.  It is modelled as a fixed total rendering of the request. -/
def serializeBlockstore (b : Blockstore) : String :=
  "<blockstore name=" ++ b.name ++ " mountpoint=" ++ b.mount ++
    " size=" ++ (b.size.getD ("")) ++ "/>"

/-- Render one node element with its blockstores. -/
def serializeNode (nd : Node) : String :=
  "<node client_id=" ++ nd.name ++
    " hardware_type=" ++ (nd.hardware_type.getD ("")) ++
    " disk_image=" ++ (nd.disk_image.getD ("")) ++
    " routable_control_ip=" ++ (if nd.routable_control_ip then ("true") else ("false")) ++
    ">" ++ String.join (nd.blockstores.map serializeBlockstore) ++ "</node>"

/-- Render one tour element. -/
def serializeTour (t : Tour) : String :=
  match t.description with
  | some (TourKind.TEXT, txt) =>
      "<rspec_tour><description type=text>" ++ txt ++ "</description></rspec_tour>"
  | some (TourKind.MARKDOWN, txt) =>
      "<rspec_tour><description type=markdown>" ++ txt ++ "</description></rspec_tour>"
  | none => "<rspec_tour/>"

/-- Render the whole request document. -/
def serializeRequest (r : Request) : String :=
  "<rspec type=request>" ++ String.join (r.tours.map serializeTour) ++
    String.join (r.nodes.map serializeNode) ++ "</rspec>"

/-- Observable effects of one straight-line statement. -/
def atomicEffects : Stmt → PState → List Effect
  | .printRequestRSpec, st => [Effect.writeStdout (serializeRequest st.request)]
  | .readArgvStmt, _ => [Effect.readArgv]
  | .readEnvStmt v, _ => [Effect.readEnv v]
  | .readFileStmt p, _ => [Effect.readFile p]
  | .writeFileStmt p, _ => [Effect.writeFile p]
  | .networkStmt, _ => [Effect.network]
  | _, _ => []

/-- A fault raised during execution: the index of the atomic step that raised,
the library's message, the state at that moment, and the effects already
performed. -/
structure Fault where
  step : Nat
  msg : String
  state : PState
  effects : List Effect
deriving Repr

/-- Run a statement list under a failure oracle (`fail n` is the outcome the
library gives the `n`-th atomic call: `none` to succeed, `some msg` to raise)
with the given fuel.  A raised fault aborts execution unless an enclosing
`tryExcept` handles it; effects performed before a fault are kept with it. -/
def run (fail : Nat → Option String) : Nat → List Stmt → Nat → PState →
    Except Fault (Nat × PState × List Effect)
  | 0, _, n, st => .error { step := n, msg := "fuel exhausted", state := st, effects := [] }
  | _ + 1, [], n, st => .ok (n, st, [])
  | fuel + 1, .ifElse c t e :: rest, n, st =>
      run fail fuel ((if c st then t else e) ++ rest) n st
  | fuel + 1, .whileLoop c body :: rest, n, st =>
      if c st then run fail fuel (body ++ Stmt.whileLoop c body :: rest) n st
      else run fail fuel rest n st
  | fuel + 1, .tryExcept body handler :: rest, n, st =>
      match run fail fuel body n st with
      | .ok (n2, st2, effs) =>
          match run fail fuel rest n2 st2 with
          | .ok (n3, st3, effs2) => .ok (n3, st3, effs ++ effs2)
          | .error f => .error { f with effects := effs ++ f.effects }
      | .error f =>
          match run fail fuel (handler ++ rest) f.step f.state with
          | .ok (n3, st3, effs2) => .ok (n3, st3, f.effects ++ effs2)
          | .error f2 => .error { f2 with effects := f.effects ++ f2.effects }
  | fuel + 1, s :: rest, n, st =>
      match fail n with
      | some m => .error { step := n, msg := m, state := st, effects := [] }
      | none =>
          match run fail fuel rest (n + 1) (atomicStep s st) with
          | .ok (n2, st2, effs) => .ok (n2, st2, atomicEffects s st ++ effs)
          | .error f => .error { f with effects := atomicEffects s st ++ f.effects }

/-- The fixed tour description string of `profile.py`: the Python
triple-quoted literal begins and ends with a newline. -/
def tourDescription : String := "\nExample profile for the hello-world-cluster\n"

/-- The statement sequence of `profile.py`, in source order: lines 6 to 27. -/
def profileScript : List Stmt :=
  [ Stmt.makeContext,
    Stmt.makeRequest,
    Stmt.makeTour,
    Stmt.tourDescriptionSet TourKind.TEXT tourDescription,
    Stmt.addTourToRequest,
    Stmt.rawPC ("deploy-node"),
    Stmt.nodeSetHardwareType ("d430"),
    Stmt.nodeSetDiskImage ("urn:publicid:IDN+emulab.net+image+emulab-ops:UBUNTU22-64-STD"),
    Stmt.nodeSetRoutableControlIp true,
    Stmt.nodeBlockstore ("bs") ("/mydata"),
    Stmt.bsSetSize ("20GB"),
    Stmt.printRequestRSpec ]

/-- Oracle for a normal run: no library call fails. -/
def noFail : Nat → Option String := fun _ => none

/-- Oracle that makes the `k`-th atomic library call raise with message `e`. -/
def failAt (k : Nat) (e : String) : Nat → Option String :=
  fun n => if n = k then some e else none

/-- Initial interpreter state, before the script runs. -/
def initState : PState :=
  { request := Request.empty, tour := Tour.empty, nodeRef := 0, bsRef := 0 }

/-- Run the whole script under a failure oracle, with ample fuel. -/
def scriptRun (fail : Nat → Option String) : Except Fault (Nat × PState × List Effect) :=
  run fail 100 profileScript 0 initState

/-- The request as it stands when the script finishes (or as of the fault,
should the run fail). -/
def finalRequest : Request :=
  match scriptRun noFail with
  | .ok (_, st, _) => st.request
  | .error f => f.state.request

/-- The effect trace of a normal run. -/
def scriptEffects : List Effect :=
  match scriptRun noFail with
  | .ok (_, _, effs) => effs
  | .error f => f.effects

/-- The stdout documents among a completed run's effects. -/
def stdoutDocs (r : Except Fault (Nat × PState × List Effect)) : List String :=
  match r with
  | .ok (_, _, effs) =>
      effs.filterMap fun e =>
        match e with
        | Effect.writeStdout d => some d
        | _ => none
  | .error _ => []

/-- The message of the unhandled fault a run ended with, if any. -/
def faultMsg (r : Except Fault (Nat × PState × List Effect)) : Option String :=
  match r with
  | .ok _ => none
  | .error f => some f.msg

/-- The step index of the unhandled fault a run ended with, if any. -/
def faultStep (r : Except Fault (Nat × PState × List Effect)) : Option Nat :=
  match r with
  | .ok _ => none
  | .error f => some f.step

/-- Process exit status: 0 on normal completion, 1 on an unhandled fault. -/
def exitStatus (r : Except Fault (Nat × PState × List Effect)) : Nat :=
  match r with
  | .ok _ => 0
  | .error _ => 1

/-- True for the statement that adds a node to the request (`request.RawPC`). -/
def Stmt.isAddNode : Stmt → Bool
  | .rawPC _ => true
  | _ => false

/-- True for a branching statement. -/
def Stmt.isBranch : Stmt → Bool
  | .ifElse _ _ _ => true
  | _ => false

/-- True for a looping statement. -/
def Stmt.isLoop : Stmt → Bool
  | .whileLoop _ _ => true
  | _ => false

/-- True for an exception-handling statement. -/
def Stmt.isHandler : Stmt → Bool
  | .tryExcept _ _ => true
  | _ => false

/-- True for the serialize-and-print statement. -/
def Stmt.isSerialize : Stmt → Bool
  | .printRequestRSpec => true
  | _ => false

/-- True for a statement that reads any input (argv, environment, file). -/
def Stmt.readsInput : Stmt → Bool
  | .readArgvStmt => true
  | .readEnvStmt _ => true
  | .readFileStmt _ => true
  | _ => false

end HelloProfile

namespace HelloProfile

/-- Claim C1: running the script adds exactly one node to the request, with
symbolic name "deploy-node", hardware type "d430", and disk image equal to the
fixed URN string; the script contains exactly one node-adding statement, so no
other node is ever added. -/
theorem request_has_exactly_one_node :
    finalRequest.nodes.map (fun nd => (nd.name, nd.hardware_type, nd.disk_image)) =
      [(("deploy-node"), some ("d430"),
        some ("urn:publicid:IDN+emulab.net+image+emulab-ops:UBUNTU22-64-STD"))] ∧
    (profileScript.filter Stmt.isAddNode).length = 1 :=
  ⟨rfl, rfl⟩

/-- Claim C2: the single node of the constructed request has its
`routable_control_ip` attribute set to true. -/
theorem node_routable_control_ip_true :
    finalRequest.nodes.map (fun nd => nd.routable_control_ip) = [true] :=
  rfl

/-- Claim C3: the single node carries exactly one blockstore, named "bs",
mounted at "/mydata", of size "20GB"; the per-node blockstore lists of the
request show the blockstore attached to that node and to nothing else. -/
theorem node_has_exactly_one_blockstore :
    finalRequest.nodes.map (fun nd => nd.blockstores) =
      [[{ name := ("bs"), mount := ("/mydata"), size := some ("20GB") }]] :=
  rfl

/-- Claim C4: the tour attached to the request carries a TEXT description whose
text equals the script's fixed descriptive string, character for character. -/
theorem tour_description_verbatim :
    finalRequest.tours.map (fun t => t.description) =
      [some (TourKind.TEXT, tourDescription)] ∧
    tourDescription = ("\nExample profile for the hello-world-cluster\n") :=
  ⟨rfl, rfl⟩

/-- Claim C5: the output is deterministic: any two runs in which the library
raises no fault produce identical stdout documents, since the construction
depends on no input. -/
theorem script_output_deterministic (f g : Nat → Option String)
    (hf : ∀ n, f n = none) (hg : ∀ n, g n = none) :
    stdoutDocs (scriptRun f) = stdoutDocs (scriptRun g) := by
  have hf2 : f = noFail := funext hf
  have hg2 : g = noFail := funext hg
  rw [hf2, hg2]

/-- Witness for C5 at two concrete never-failing oracles. -/
theorem script_output_deterministic_witness :
    stdoutDocs (scriptRun noFail) = stdoutDocs (scriptRun (fun _ => none)) :=
  script_output_deterministic noFail (fun _ => none) (fun _ => rfl) (fun _ => rfl)

/-- Claim C6: the script reads no inputs — no statement of it reads argv, the
environment, or a file — and the effect trace of a normal run is exactly one
stdout write of the serialized request: no file write, no network use, no
other effect at all. -/
theorem script_effects_single_stdout_write :
    scriptEffects = [Effect.writeStdout (serializeRequest finalRequest)] ∧
    profileScript.all (fun s => !(s.readsInput)) = true :=
  ⟨rfl, rfl⟩

/-- Claim C7: the script contains no exception handler, and whenever the
library raises at any of the script's twelve atomic calls, the fault
propagates unhandled: the run terminates with exactly that fault. -/
theorem library_fault_propagates_unhandled :
    profileScript.all (fun s => !(s.isHandler)) = true ∧
    ∀ k e, k < 12 →
      faultMsg (scriptRun (failAt k e)) = some e ∧
      faultStep (scriptRun (failAt k e)) = some k := by
  refine ⟨rfl, ?_⟩
  intro k e hk
  interval_cases k <;> exact ⟨rfl, rfl⟩

/-- Witness for C7: a fault raised at the fourth atomic call terminates the
run with that fault. -/
theorem library_fault_propagates_unhandled_witness :
    faultMsg (scriptRun (failAt 3 ("boom"))) = some ("boom") ∧
    faultStep (scriptRun (failAt 3 ("boom"))) = some 3 :=
  library_fault_propagates_unhandled.2 3 ("boom") (by decide)

/-- Claim C8: under normal conditions (no library call fails), the script runs
to completion and the process exits with a successful status. -/
theorem normal_run_exits_zero :
    exitStatus (scriptRun noFail) = 0 ∧ faultMsg (scriptRun noFail) = none :=
  ⟨rfl, rfl⟩

/-- Claim C9: the script is a single linear sequence — it contains no branch
and no loop — the serialize-and-print call is its final statement with nothing
after it, no earlier statement serializes, and the serialize statement itself
mutates no constructed entity, so nothing is mutated after the serialize
step. -/
theorem straight_line_serialize_last :
    profileScript.all (fun s => !(s.isBranch || s.isLoop)) = true ∧
    profileScript.drop 11 = [Stmt.printRequestRSpec] ∧
    (profileScript.take 11).all (fun s => !(s.isSerialize)) = true ∧
    atomicStep Stmt.printRequestRSpec = id := by
  refine ⟨rfl, rfl, rfl, ?_⟩
  funext st
  rfl

/-- Claim C10: the fixed tour description literal begins and ends with a
newline character, so it is not the bare sentence without the newlines. -/
theorem tour_description_newline_delimited :
    tourDescription = ("\nExample profile for the hello-world-cluster\n") ∧
    tourDescription.front = '\n' ∧
    tourDescription.back = '\n' ∧
    tourDescription ≠ ("Example profile for the hello-world-cluster") := by
  refine ⟨rfl, rfl, rfl, ?_⟩
  decide

end HelloProfile
